import Mathlib

/-!
Verification of GitGenie's file-mutation pipeline.

This file gives a shallow embedding of the repository's core filesystem
operations and proves the specified properties about them:

* `SimplePatchTools.apply_patch_raw` — `agent/simple_patch_tools.py`
* `PatchTools.apply_patch_raw` — `agent/agent_tools/patch_tools.py`
* `SimplePatchTools.create_new_file_raw` — `agent/simple_patch_tools.py`
  (the copy in `agent/agent_tools/patch_tools.py` is identical in its
  filesystem behaviour, differing only in emitted progress events)
* `FileTools.read_dir_tree_raw` — `agent/agent_tools/file_tools.py`
* `Main.fix_sync` — the `/fix-sync` request handler in `agent/main.py`

The filesystem is modelled as a map from resolved paths (component lists)
to file contents, together with a set of directories.  I/O faults
(a read, write or mkdir raising an `OSError`) and write interference
(the durable content observed on disk after a write differing from what
was handed to the write call) are injected through a static `World` of
oracles, so that the error-handling branches of the source are reachable
in the model.  Python exceptions are made explicit with `Except`: each
`*_try` function is the body of the source's `try:` block, with
`.error e` meaning the body raised `e`; the corresponding `*_raw`
function adds the source's `except` handler, which converts the
exception into a descriptive outcome string.
-/

namespace GitGenie

/-- A resolved filesystem path, as its list of components. -/
abbrev FPath := List String

/-- A path argument as received by the Python functions: either absolute
or relative to the project root (`os.path.isabs` distinguishes them). -/
structure PyPath where
  isAbs : Bool
  comps : List String
deriving DecidableEq

/-- `Path(project_root) / filename` resolution from both
`apply_patch_raw` and `create_new_file_raw`: an absolute `filename` is
used as is, a relative one is appended to the project root. -/
def resolvePath (project_root : FPath) (p : PyPath) : FPath :=
  if p.isAbs then p.comps else project_root ++ p.comps

/-- Filesystem state: contents of regular files, and which paths are
directories. -/
structure FS where
  files : FPath → Option String
  dirs : FPath → Bool

/-- `Path.exists()`: true when the path is a regular file or a
directory. -/
def FS.existsAt (fs : FS) (p : FPath) : Bool :=
  (fs.files p).isSome || fs.dirs p

/-- The state after a write syscall leaves durable content `s` at `p`. -/
def FS.writeFile (fs : FS) (p : FPath) (s : String) : FS :=
  { fs with files := fun q => if q = p then some s else fs.files q }

/-- Python exceptions that the modelled primitives can raise. -/
inductive PyExc where
  | osError
  | isADirectoryError
  | fileNotFoundError
  | fileExistsError
deriving DecidableEq

/-- Fault oracles, fixed for the duration of one call: which paths fail
to read / write / mkdir, and what content a write of `s` to `p` actually
leaves on disk (`landed p s ≠ s` models a partial write or external
interference between the write and the verification re-read). -/
structure World where
  readFails : FPath → Bool
  writeFails : FPath → Bool
  mkdirFails : FPath → Bool
  landed : FPath → String → String

/-- `Path.read_text()`: raises on an injected fault, on a directory, or
on a missing file; otherwise returns the file's content. -/
def readText (w : World) (fs : FS) (p : FPath) : Except PyExc String :=
  if w.readFails p then .error .osError
  else
    match fs.files p with
    | some s => .ok s
    | none => if fs.dirs p then .error .isADirectoryError else .error .fileNotFoundError

/-- `Path.write_text(s)`: raises on an injected fault or on a directory;
otherwise the durable content at `p` becomes `w.landed p s`. -/
def writeText (w : World) (fs : FS) (p : FPath) (s : String) : Except PyExc FS :=
  if w.writeFails p then .error .osError
  else if fs.dirs p then .error .isADirectoryError
  else .ok (fs.writeFile p (w.landed p s))

/-- All prefixes of a path, from `[]` up to the path itself. -/
def prefixesOf : FPath → List FPath
  | [] => [[]]
  | c :: rest => [] :: (prefixesOf rest).map (c :: ·)

/-- `Path.mkdir(parents=True, exist_ok=True)` on directory path `d`:
raises on an injected fault or when some component along the way exists
as a regular file; otherwise marks `d` and all its ancestors as
directories. -/
def mkdirParents (w : World) (fs : FS) (d : FPath) : Except PyExc FS :=
  if w.mkdirFails d then .error .osError
  else if (prefixesOf d).any (fun q => (fs.files q).isSome) then .error .fileExistsError
  else .ok { fs with dirs := fun q => decide (q ∈ prefixesOf d) || fs.dirs q }

/-- The outcome strings returned by the mutator and creator.  Each
constructor corresponds to exactly one format string in the source:

* `fileNotFound p` — `"Error: File not found: {file_path}"`
* `unchanged f` — `"File {filename} already has the requested content"`
* `writeError f e` — `"Error writing file {filename}: {write_error}"`
* `verificationFailed f` — `"Error: File write verification failed for {filename}"`
* `updated f` — `"Successfully updated {filename}"`
* `updateError e` — `"Error updating file: {e}"`
* `created p` — `"Created new file: {path}"`
* `createVerificationFailed p` — `"Error: File creation verification failed for {path}"`
* `notCreated p` — `"Error: File was not created at {path}"`
* `createError e` — `"Error creating file: {e}"` -/
inductive Outcome where
  | fileNotFound (file_path : FPath)
  | unchanged (filename : PyPath)
  | writeError (filename : PyPath) (e : PyExc)
  | verificationFailed (filename : PyPath)
  | updated (filename : PyPath)
  | updateError (e : PyExc)
  | created (path : PyPath)
  | createVerificationFailed (path : PyPath)
  | notCreated (path : PyPath)
  | createError (e : PyExc)
deriving DecidableEq

/-- Outcomes that report success to the caller. -/
def Outcome.isSuccessMessage : Outcome → Bool
  | .unchanged _ | .updated _ | .created _ => true
  | _ => false

/-- Outcomes that report an error to the caller (still returned as a
descriptive string, never raised). -/
def Outcome.isErrorMessage : Outcome → Bool
  | .unchanged _ | .updated _ | .created _ => false
  | _ => true

namespace SimplePatchTools

/-- Body of the `try:` block of `apply_patch_raw` in
`agent/simple_patch_tools.py`: resolve the path; return a
file-not-found outcome if it does not exist; read the current content
(an exception here escapes to the outer handler); return the no-op
outcome if it already equals `new_content`; otherwise write, run the
two verification reads of the inner `try:` (whose `except` returns the
write-error outcome), then re-read once more and compare, failing with
the verification outcome on mismatch and succeeding otherwise.
`stat` calls (used only for mtime debugging prints) are not modelled. -/
def apply_patch_try (w : World) (fs : FS) (project_root : FPath) (filename : PyPath)
    (new_content : String) : FS × Except PyExc Outcome :=
  let file_path := resolvePath project_root filename
  if !(fs.existsAt file_path) then (fs, .ok (.fileNotFound file_path))
  else
    match readText w fs file_path with
    | .error e => (fs, .error e)
    | .ok current_content =>
      if current_content = new_content then (fs, .ok (.unchanged filename))
      else
        match writeText w fs file_path new_content with
        | .error e => (fs, .ok (.writeError filename e))
        | .ok fs1 =>
          match readText w fs1 file_path with
          | .error e => (fs1, .ok (.writeError filename e))
          | .ok _ =>
            match readText w fs1 file_path with
            | .error e => (fs1, .ok (.writeError filename e))
            | .ok _ =>
              match readText w fs1 file_path with
              | .error e => (fs1, .error e)
              | .ok final_verification =>
                if final_verification ≠ new_content then
                  (fs1, .ok (.verificationFailed filename))
                else (fs1, .ok (.updated filename))

/-- `apply_patch_raw` of `agent/simple_patch_tools.py`: the `try:` body
above wrapped in the outer `except`, which converts any escaped
exception into the `"Error updating file: {e}"` outcome string. -/
def apply_patch_raw (w : World) (fs : FS) (project_root : FPath) (filename : PyPath)
    (new_content : String) : FS × Outcome :=
  match apply_patch_try w fs project_root filename new_content with
  | (fs', .ok o) => (fs', o)
  | (fs', .error e) => (fs', .updateError e)

end SimplePatchTools

namespace PatchTools

/-- Body of the `try:` block of `apply_patch_raw` in
`agent/agent_tools/patch_tools.py`: same as the simple variant but with
no inner `try:` around the write — a write failure escapes to the outer
handler — and a single verification re-read. -/
def apply_patch_try (w : World) (fs : FS) (project_root : FPath) (filename : PyPath)
    (new_content : String) : FS × Except PyExc Outcome :=
  let file_path := resolvePath project_root filename
  if !(fs.existsAt file_path) then (fs, .ok (.fileNotFound file_path))
  else
    match readText w fs file_path with
    | .error e => (fs, .error e)
    | .ok current_content =>
      if current_content = new_content then (fs, .ok (.unchanged filename))
      else
        match writeText w fs file_path new_content with
        | .error e => (fs, .error e)
        | .ok fs1 =>
          match readText w fs1 file_path with
          | .error e => (fs1, .error e)
          | .ok verification_content =>
            if verification_content ≠ new_content then
              (fs1, .ok (.verificationFailed filename))
            else (fs1, .ok (.updated filename))

/-- `apply_patch_raw` of `agent/agent_tools/patch_tools.py`: the `try:`
body wrapped in the outer `except` handler. -/
def apply_patch_raw (w : World) (fs : FS) (project_root : FPath) (filename : PyPath)
    (new_content : String) : FS × Outcome :=
  match apply_patch_try w fs project_root filename new_content with
  | (fs', .ok o) => (fs', o)
  | (fs', .error e) => (fs', .updateError e)

end PatchTools

namespace SimplePatchTools

/-- Body of the `try:` block of `create_new_file_raw` in
`agent/simple_patch_tools.py` (the copy in
`agent/agent_tools/patch_tools.py` has identical filesystem behaviour):
resolve the path, create all missing parent directories, write the
content, then — if the path exists — re-read and verify, returning the
creation-verification outcome on mismatch; if the path does not exist
after the write, return the not-created outcome. -/
def create_new_file_try (w : World) (fs : FS) (project_root : FPath) (path : PyPath)
    (content : String) : FS × Except PyExc Outcome :=
  let full_path := resolvePath project_root path
  match mkdirParents w fs full_path.dropLast with
  | .error e => (fs, .error e)
  | .ok fs1 =>
    match writeText w fs1 full_path content with
    | .error e => (fs1, .error e)
    | .ok fs2 =>
      if fs2.existsAt full_path then
        match readText w fs2 full_path with
        | .error e => (fs2, .error e)
        | .ok verification_content =>
          if verification_content ≠ content then
            (fs2, .ok (.createVerificationFailed path))
          else (fs2, .ok (.created path))
      else (fs2, .ok (.notCreated path))

/-- `create_new_file_raw` of `agent/simple_patch_tools.py`: the `try:`
body wrapped in the outer `except`, which converts any escaped
exception into the `"Error creating file: {e}"` outcome string. -/
def create_new_file_raw (w : World) (fs : FS) (project_root : FPath) (path : PyPath)
    (content : String) : FS × Outcome :=
  match create_new_file_try w fs project_root path content with
  | (fs', .ok o) => (fs', o)
  | (fs', .error e) => (fs', .createError e)

end SimplePatchTools

namespace FileTools

/-- `IGNORED_TOPDIRS` of `agent/agent_tools/file_tools.py`. -/
def IGNORED_TOPDIRS : List String :=
  ["node_modules", "venv", "__pycache__", ".git", "dist", "build", "env", ".venv", ".next", ".vite"]

/-- A directory's listing for the scanner: the names of the regular
files directly inside it, and the named subdirectories with their own
listings.  (File contents play no role in `os.walk`.) -/
inductive Tree where
  | node (files : List String) (subdirs : List (String × Tree))

/-- The `parts and parts[0] in IGNORED_TOPDIRS` test of
`read_dir_tree_raw` on the path of a visited directory relative to the
root.  For the root itself `rel` is `[]` (Python's `"."`, whose first
part `"."` is not an ignored name). -/
def headIgnored : List String → Bool
  | [] => false
  | c :: _ => decide (c ∈ IGNORED_TOPDIRS)

mutual

/-- One `os.walk` visit of the second pass of `read_dir_tree_raw`, at
the directory whose path relative to the root is `rel`: if `rel` starts
with an ignored top-level name the entry is skipped and `dirnames` is
cleared (pruning the whole subtree); otherwise the directory's file
names are recorded under `rel`, the ignored names are filtered out of
`dirnames` in place, and the walk descends into the remaining
subdirectories in order. -/
def osWalk (rel : List String) : Tree → List (List String × List String)
  | .node files subdirs =>
    if headIgnored rel then []
    else
      (rel, files) ::
        osWalkList rel (subdirs.filter (fun d => !(decide (d.1 ∈ IGNORED_TOPDIRS))))
termination_by t => sizeOf t
decreasing_by
  have hfil : ∀ (l : List (String × Tree)),
      sizeOf (List.filter (fun d => !(decide (d.1 ∈ IGNORED_TOPDIRS))) l) ≤ sizeOf l := by
    intro l
    induction l with
    | nil => simp
    | cons a t ih =>
      rw [List.filter]
      split
      · simp only [List.cons.sizeOf_spec]
        omega
      · simp only [List.cons.sizeOf_spec]
        omega
  have := hfil subdirs
  simp only [Tree.node.sizeOf_spec]
  omega

/-- The descent of `os.walk` into a directory's remaining (unpruned)
subdirectories, in order. -/
def osWalkList (rel : List String) : List (String × Tree) → List (List String × List String)
  | [] => []
  | (n, t) :: rest => osWalk (rel ++ [n]) t ++ osWalkList rel rest
termination_by l => sizeOf l
decreasing_by
  · simp only [List.cons.sizeOf_spec, Prod.mk.sizeOf_spec]
    omega
  · simp only [List.cons.sizeOf_spec]
    omega

end

/-- The error the specification names for an invalid scan root; the
source never raises it. -/
inductive ScanErr where
  | notADirectoryError
deriving DecidableEq

/-- `read_dir_tree_raw` of `agent/agent_tools/file_tools.py`.  The root
argument is `some t` when `project_root` is a directory with listing
`t`, and `none` when it is missing or not a directory — in that case
`os.walk` (with its default `onerror=None`) swallows the scandir
failure and yields no triples, so the function returns the empty tree.
The `Except` layer records that any uncaught Python exception would
propagate to the caller; none is ever raised.  The first, counting pass
of the source touches no state and is not modelled. -/
def read_dir_tree_raw : Option Tree → Except ScanErr (List (List String × List String))
  | none => .ok []
  | some t => .ok (osWalk [] t)

end FileTools

namespace Main

/-- The response bodies `fix_sync` in `agent/main.py` can return.  Each
constructor corresponds to one `jsonify` site:

* `missingParams` — 400, `"Missing required parameters: ..."`
* `pathNotFound` — 400, `"Project path does not exist: ..."`
* `notADirectory` — 400, `"Project path is not a directory: ..."`
* `success s` — 200, the agent's summary
* `agentFailed e` — 500, `"Agent execution failed: ..."` -/
inductive FixSyncResult where
  | missingParams
  | pathNotFound
  | notADirectory
  | success (summary : String)
  | agentFailed (e : String)
deriving DecidableEq

/-- Whether a response reports failure (`success: False`) to the
caller. -/
def FixSyncResult.isFailure : FixSyncResult → Bool
  | .success _ => false
  | _ => true

/-- `fix_sync` of `agent/main.py`, from the parameter checks on.  The
string parameters default to `""` when absent, and Python's truthiness
test rejects empty values; the `project_path` parameter is modelled as
its component list, with `[]` for the empty/missing value.  After
validation the handler calls `agent(project_path, session_id,
user_instructions)` — abstracted here as the argument `agentF`, whose
`.error` result models a raised exception — and wraps its outcome; the
surrounding directory-listing debug prints read only the validated
project directory itself and change no state. -/
def fix_sync (agentF : FS → FPath → String → String → FS × Except String String)
    (fs : FS) (project_path : FPath) (session_id user_instructions : String) :
    FS × FixSyncResult :=
  if project_path = [] ∨ session_id = "" ∨ user_instructions = "" then
    (fs, .missingParams)
  else if !(fs.existsAt project_path) then (fs, .pathNotFound)
  else if !(fs.dirs project_path) then (fs, .notADirectory)
  else
    match agentF fs project_path session_id user_instructions with
    | (fs', .ok summary) => (fs', .success summary)
    | (fs', .error e) => (fs', .agentFailed e)

end Main

/-! Concrete data used to exercise the theorems. -/

/-- A fault-free world: no injected I/O failures, and every write lands
on disk exactly as issued. -/
def noFaults : World :=
  { readFails := fun _ => false
    writeFails := fun _ => false
    mkdirFails := fun _ => false
    landed := fun _ s => s }

/-- A world in which every write is corrupted on disk: the verification
re-read observes `"corrupted"` instead of the written content. -/
def corruptedWrites : World := { noFaults with landed := fun _ _ => "corrupted" }

/-- A world in which every read raises an `OSError`. -/
def readsFail : World := { noFaults with readFails := fun _ => true }

/-- A filesystem holding the single file `a.txt` (content `"hello"`)
under the root directory. -/
def fsA : FS :=
  { files := fun p => if p = ["a.txt"] then some "hello" else none
    dirs := fun p => decide (p = []) }

/-- The relative path argument `"a.txt"`. -/
def aTxt : PyPath := ⟨false, ["a.txt"]⟩

/-- The relative path argument `"missing.txt"`. -/
def missingTxt : PyPath := ⟨false, ["missing.txt"]⟩

/-- The relative path argument `"a/b/c.txt"`. -/
def abcTxt : PyPath := ⟨false, ["a", "b", "c.txt"]⟩

/-- A project listing with a file `app.py`, an ignored `node_modules`
subtree containing `index.js`, and a `src` directory containing
`main.py`. -/
def demoTree : FileTools.Tree :=
  .node ["app.py"]
    [("node_modules", .node ["index.js"] []), ("src", .node ["main.py"] [])]

/-- An agent stub that succeeds with a fixed summary. -/
def agentA : FS → FPath → String → String → FS × Except String String :=
  fun fs _ _ _ => (fs, .ok "summary A")

/-- An agent stub that raises. -/
def agentB : FS → FPath → String → String → FS × Except String String :=
  fun fs _ _ _ => (fs, .error "boom")

/-! Helper lemmas about the filesystem primitives. -/

/-- A successful `read_text` returns exactly the file's recorded
content. -/
theorem readText_ok_files {w : World} {fs : FS} {p : FPath} {s : String}
    (h : readText w fs p = .ok s) : fs.files p = some s := by
  unfold readText at h
  split at h
  · exact absurd h (by simp)
  · split at h
    · next heq => rw [heq]; simpa using h
    · split at h <;> simp_all

/-- A successful `write_text` of `s` leaves the durable content
`w.landed p s` at `p` and changes nothing else. -/
theorem writeText_ok_eq {w : World} {fs : FS} {p : FPath} {s : String} {fs1 : FS}
    (h : writeText w fs p s = .ok fs1) : fs1 = fs.writeFile p (w.landed p s) := by
  unfold writeText at h
  split at h
  · exact absurd h (by simp)
  · split at h
    · exact absurd h (by simp)
    · simpa using h.symm

/-- The written path holds the landed content. -/
theorem FS.writeFile_files_self (fs : FS) (p : FPath) (s : String) :
    (fs.writeFile p s).files p = some s := by
  simp [FS.writeFile]

/-- Every other path is untouched by a write. -/
theorem FS.writeFile_files_other (fs : FS) (p : FPath) (s : String) {q : FPath}
    (h : q ≠ p) : (fs.writeFile p s).files q = fs.files q := by
  simp [FS.writeFile, h]

/-- A write creates and removes no directories. -/
theorem FS.writeFile_dirs (fs : FS) (p : FPath) (s : String) :
    (fs.writeFile p s).dirs = fs.dirs := rfl

/-! C1 — applying a change whose content already matches is a no-op. -/

/-- C1: for every existing file whose current content equals the
supplied new content, both variants of `apply_patch_raw` return the
unchanged outcome and leave the filesystem exactly as it was (no write
is performed). -/
theorem apply_patch_raw_idempotent (w : World) (fs : FS) (root : FPath) (f : PyPath)
    (c : String)
    (hfile : fs.files (resolvePath root f) = some c)
    (hread : w.readFails (resolvePath root f) = false) :
    SimplePatchTools.apply_patch_raw w fs root f c = (fs, .unchanged f) ∧
    PatchTools.apply_patch_raw w fs root f c = (fs, .unchanged f) := by
  constructor <;>
    simp [SimplePatchTools.apply_patch_raw, SimplePatchTools.apply_patch_try,
      PatchTools.apply_patch_raw, PatchTools.apply_patch_try,
      readText, FS.existsAt, hfile, hread]

/-- Witness for C1: rewriting `a.txt` with its current content `"hello"`
is a no-op. -/
theorem apply_patch_raw_idempotent_witness :
    fsA.files (resolvePath [] aTxt) = some "hello" ∧
    SimplePatchTools.apply_patch_raw noFaults fsA [] aTxt "hello" = (fsA, .unchanged aTxt) := by
  refine ⟨by decide, ?_⟩
  exact (apply_patch_raw_idempotent noFaults fsA [] aTxt "hello" (by decide) (by decide)).1

/-! C3 — a missing target fails with the file-not-found outcome. -/

/-- C3: when the resolved path does not exist, both variants of
`apply_patch_raw` return the file-not-found outcome and leave the
filesystem exactly as it was — in particular the missing file is not
created. -/
theorem apply_patch_raw_missing (w : World) (fs : FS) (root : FPath) (f : PyPath)
    (c : String)
    (hmiss : fs.existsAt (resolvePath root f) = false) :
    SimplePatchTools.apply_patch_raw w fs root f c = (fs, .fileNotFound (resolvePath root f)) ∧
    PatchTools.apply_patch_raw w fs root f c = (fs, .fileNotFound (resolvePath root f)) := by
  constructor <;>
    simp [SimplePatchTools.apply_patch_raw, SimplePatchTools.apply_patch_try,
      PatchTools.apply_patch_raw, PatchTools.apply_patch_try, hmiss]

/-- Witness for C3: patching `missing.txt` in the one-file filesystem
reports file-not-found and does not create it. -/
theorem apply_patch_raw_missing_witness :
    fsA.existsAt (resolvePath [] missingTxt) = false ∧
    SimplePatchTools.apply_patch_raw noFaults fsA [] missingTxt "X" =
      (fsA, .fileNotFound (resolvePath [] missingTxt)) := by
  refine ⟨by decide, ?_⟩
  exact (apply_patch_raw_missing noFaults fsA [] missingTxt "X" (by decide)).1

/-! C2 — a successful update leaves exactly the supplied content. -/

/-- If the `try:` body of the simple variant produces the success
outcome, the target file holds exactly the requested content. -/
theorem simple_apply_try_updated {w : World} {fs : FS} {root : FPath} {f f' : PyPath}
    {c' : String} {fs1 : FS}
    (heq : SimplePatchTools.apply_patch_try w fs root f c' = (fs1, .ok (.updated f'))) :
    fs1.files (resolvePath root f) = some c' := by
  rw [SimplePatchTools.apply_patch_try.eq_def] at heq
  simp only [] at heq
  repeat' split at heq
  all_goals try (simp at heq)
  rename_i x2 v2 h2 x1 v1 hc1 x0 v0 hc0 hf
  obtain ⟨rfl, -⟩ := heq
  have e1 : v2 = v1 := by simpa using hc1
  have e2 : v1 = v0 := by simpa using hc0
  have e3 : v0 = c' := by simpa using hf
  rw [e1, e2, e3] at h2
  exact readText_ok_files h2

/-- If the `try:` body of the agent-tools variant produces the success
outcome, the target file holds exactly the requested content. -/
theorem at_apply_try_updated {w : World} {fs : FS} {root : FPath} {f f' : PyPath}
    {c' : String} {fs1 : FS}
    (heq : PatchTools.apply_patch_try w fs root f c' = (fs1, .ok (.updated f'))) :
    fs1.files (resolvePath root f) = some c' := by
  rw [PatchTools.apply_patch_try.eq_def] at heq
  simp only [] at heq
  repeat' split at heq
  all_goals try (simp at heq)
  rename_i x0 v0 h2 hf
  obtain ⟨rfl, -⟩ := heq
  have e3 : v0 = c' := by simpa using hf
  rw [e3] at h2
  exact readText_ok_files h2

/-- C2: for an existing file with content `c` and new content `c' ≠ c`,
whenever either variant of `apply_patch_raw` returns the success
outcome, the target file afterwards holds exactly `c'`. -/
theorem apply_patch_raw_success_writes (w : World) (fs : FS) (root : FPath) (f : PyPath)
    (c c' : String)
    (_hfile : fs.files (resolvePath root f) = some c)
    (_hne : c' ≠ c) :
    (∀ fs', SimplePatchTools.apply_patch_raw w fs root f c' = (fs', .updated f) →
      fs'.files (resolvePath root f) = some c') ∧
    (∀ fs', PatchTools.apply_patch_raw w fs root f c' = (fs', .updated f) →
      fs'.files (resolvePath root f) = some c') := by
  constructor
  · intro fs' h
    unfold SimplePatchTools.apply_patch_raw at h
    split at h
    · next fs1 o heq =>
      obtain ⟨h1, h2⟩ := Prod.mk.inj h
      subst h1; subst h2
      exact simple_apply_try_updated heq
    · next fs1 e heq => simp at h
  · intro fs' h
    unfold PatchTools.apply_patch_raw at h
    split at h
    · next fs1 o heq =>
      obtain ⟨h1, h2⟩ := Prod.mk.inj h
      subst h1; subst h2
      exact at_apply_try_updated heq
    · next fs1 e heq => simp at h

/-- Witness for C2: updating `a.txt` from `"hello"` to `"world"`
succeeds and the file then holds `"world"`. -/
theorem apply_patch_raw_success_writes_witness :
    fsA.files (resolvePath [] aTxt) = some "hello" ∧ "world" ≠ "hello" ∧
    (SimplePatchTools.apply_patch_raw noFaults fsA [] aTxt "world").1.files
      (resolvePath [] aTxt) = some "world" := by
  refine ⟨by decide, by decide, ?_⟩
  refine (apply_patch_raw_success_writes noFaults fsA [] aTxt "hello" "world"
    (by decide) (by decide)).1
    (SimplePatchTools.apply_patch_raw noFaults fsA [] aTxt "world").1 ?_
  have h2 : (SimplePatchTools.apply_patch_raw noFaults fsA [] aTxt "world").2 =
      .updated aTxt := by decide
  rw [show SimplePatchTools.apply_patch_raw noFaults fsA [] aTxt "world" =
    ((SimplePatchTools.apply_patch_raw noFaults fsA [] aTxt "world").1,
     (SimplePatchTools.apply_patch_raw noFaults fsA [] aTxt "world").2) from rfl, h2]

/-! C4 — failed write verification is reported distinctly. -/

/-- C4: when the verification re-read observes content differing from
what was written (`landed ≠ c'`), both variants fail with the
verification-failed outcome, which is a different outcome string from
both the generic caught-exception outcome and the simple variant's
write-error outcome. -/
theorem apply_patch_raw_verification_distinct (w : World) (fs : FS) (root : FPath)
    (f : PyPath) (c c' : String)
    (hfile : fs.files (resolvePath root f) = some c)
    (hne : c ≠ c')
    (hdir : fs.dirs (resolvePath root f) = false)
    (hread : w.readFails (resolvePath root f) = false)
    (hwrite : w.writeFails (resolvePath root f) = false)
    (hland : w.landed (resolvePath root f) c' ≠ c') :
    SimplePatchTools.apply_patch_raw w fs root f c' =
      (fs.writeFile (resolvePath root f) (w.landed (resolvePath root f) c'),
        .verificationFailed f) ∧
    PatchTools.apply_patch_raw w fs root f c' =
      (fs.writeFile (resolvePath root f) (w.landed (resolvePath root f) c'),
        .verificationFailed f) ∧
    (∀ e, Outcome.verificationFailed f ≠ .updateError e) ∧
    (∀ f' e, Outcome.verificationFailed f ≠ .writeError f' e) := by
  refine ⟨?_, ?_, by simp, by simp⟩
  all_goals
    simp [SimplePatchTools.apply_patch_raw, SimplePatchTools.apply_patch_try,
      PatchTools.apply_patch_raw, PatchTools.apply_patch_try,
      readText, writeText, FS.existsAt, FS.writeFile, hfile, hne, hdir, hread,
      hwrite, hland]

/-- Witness for C4: with every write corrupted to `"corrupted"`, the
update of `a.txt` to `"world"` is reported as a verification failure. -/
theorem apply_patch_raw_verification_distinct_witness :
    corruptedWrites.landed (resolvePath [] aTxt) "world" ≠ "world" ∧
    (SimplePatchTools.apply_patch_raw corruptedWrites fsA [] aTxt "world").2 =
      .verificationFailed aTxt := by
  refine ⟨by decide, ?_⟩
  have h := (apply_patch_raw_verification_distinct corruptedWrites fsA [] aTxt
    "hello" "world" (by decide) (by decide) (by decide) (by decide) (by decide)
    (by decide)).1
  rw [h]

/-! C10 — the mutator touches at most the resolved target file. -/

/-- The filesystem left by the simple variant's `try:` body is either
the original one or the original with a single write at the resolved
target. -/
theorem simple_apply_try_fst (w : World) (fs : FS) (root : FPath) (f : PyPath)
    (c : String) :
    (SimplePatchTools.apply_patch_try w fs root f c).1 = fs ∨
    (SimplePatchTools.apply_patch_try w fs root f c).1 =
      fs.writeFile (resolvePath root f) (w.landed (resolvePath root f) c) := by
  rw [SimplePatchTools.apply_patch_try.eq_def]
  simp only []
  repeat' split
  all_goals try (left; rfl)
  all_goals right
  all_goals exact writeText_ok_eq (by assumption)

/-- The filesystem left by the agent-tools variant's `try:` body is
either the original one or the original with a single write at the
resolved target. -/
theorem at_apply_try_fst (w : World) (fs : FS) (root : FPath) (f : PyPath)
    (c : String) :
    (PatchTools.apply_patch_try w fs root f c).1 = fs ∨
    (PatchTools.apply_patch_try w fs root f c).1 =
      fs.writeFile (resolvePath root f) (w.landed (resolvePath root f) c) := by
  rw [PatchTools.apply_patch_try.eq_def]
  simp only []
  repeat' split
  all_goals try (left; rfl)
  all_goals right
  all_goals exact writeText_ok_eq (by assumption)

/-- The outer handler does not change the filesystem component of the
simple variant's result. -/
theorem simple_apply_raw_fst (w : World) (fs : FS) (root : FPath) (f : PyPath)
    (c : String) :
    (SimplePatchTools.apply_patch_raw w fs root f c).1 =
      (SimplePatchTools.apply_patch_try w fs root f c).1 := by
  unfold SimplePatchTools.apply_patch_raw
  split <;> (next a b heq => rw [heq])

/-- The outer handler does not change the filesystem component of the
agent-tools variant's result. -/
theorem at_apply_raw_fst (w : World) (fs : FS) (root : FPath) (f : PyPath)
    (c : String) :
    (PatchTools.apply_patch_raw w fs root f c).1 =
      (PatchTools.apply_patch_try w fs root f c).1 := by
  unfold PatchTools.apply_patch_raw
  split <;> (next a b heq => rw [heq])

/-- C10: on every branch — success, no-op, and all error branches —
both variants of `apply_patch_raw` create and remove no directories,
and change no file other than the one at the resolved target path. -/
theorem apply_patch_raw_frame (w : World) (fs : FS) (root : FPath) (f : PyPath)
    (c : String) :
    (SimplePatchTools.apply_patch_raw w fs root f c).1.dirs = fs.dirs ∧
    (PatchTools.apply_patch_raw w fs root f c).1.dirs = fs.dirs ∧
    ∀ q, q ≠ resolvePath root f →
      (SimplePatchTools.apply_patch_raw w fs root f c).1.files q = fs.files q ∧
      (PatchTools.apply_patch_raw w fs root f c).1.files q = fs.files q := by
  rw [simple_apply_raw_fst, at_apply_raw_fst]
  rcases simple_apply_try_fst w fs root f c with h1 | h1 <;>
    rcases at_apply_try_fst w fs root f c with h2 | h2 <;>
    rw [h1, h2] <;>
    exact ⟨by simp [FS.writeFile], by simp [FS.writeFile],
      fun q hq => ⟨by simp [FS.writeFile, hq], by simp [FS.writeFile, hq]⟩⟩

/-- Witness for C10: patching `a.txt` leaves the unrelated path
`other.txt` and the directory set untouched. -/
theorem apply_patch_raw_frame_witness :
    (SimplePatchTools.apply_patch_raw noFaults fsA [] aTxt "world").1.files
        ["other.txt"] = fsA.files ["other.txt"] ∧
    (SimplePatchTools.apply_patch_raw noFaults fsA [] aTxt "world").1.dirs = fsA.dirs := by
  have h := apply_patch_raw_frame noFaults fsA [] aTxt "world"
  exact ⟨(h.2.2 ["other.txt"] (by decide)).1, h.1⟩

/-! C6 — file creation builds the missing parents and writes the
content. -/

/-- Membership in `prefixesOf` is exactly the prefix relation. -/
theorem mem_prefixesOf {q d : FPath} : q ∈ prefixesOf d ↔ q <+: d := by
  induction d generalizing q with
  | nil => simp [prefixesOf]
  | cons a rest ih =>
    simp only [prefixesOf, List.mem_cons, List.mem_map]
    constructor
    · rintro (rfl | ⟨r, hr, rfl⟩)
      · exact List.nil_prefix
      · exact (List.prefix_cons_inj a).mpr (ih.mp hr)
    · intro h
      match q with
      | [] => exact Or.inl rfl
      | b :: q' =>
        rcases List.cons_prefix_cons.mp h with ⟨rfl, h2⟩
        exact Or.inr ⟨q', ih.mpr h2, rfl⟩

/-- A nonempty path is not among the prefixes of its own parent. -/
theorem self_not_mem_prefixesOf_dropLast {p : FPath} (h : p ≠ []) :
    p ∉ prefixesOf p.dropLast := by
  intro hmem
  have hle := (mem_prefixesOf.mp hmem).length_le
  rw [List.length_dropLast] at hle
  have hpos : 0 < p.length := List.length_pos.mpr h
  omega

/-- C6: with no injected faults along the way, `create_new_file_raw`
returns the creation-success outcome, afterwards the resolved path
holds exactly the supplied content (even if a file already existed
there — no exclusivity check), and every intermediate parent directory
of the resolved path exists. -/
theorem create_new_file_raw_creates (w : World) (fs : FS) (root : FPath) (pa : PyPath)
    (x : String)
    (hne : resolvePath root pa ≠ [])
    (hmk : w.mkdirFails (resolvePath root pa).dropLast = false)
    (hnofile : ∀ q ∈ prefixesOf (resolvePath root pa).dropLast, fs.files q = none)
    (hdir : fs.dirs (resolvePath root pa) = false)
    (hwrite : w.writeFails (resolvePath root pa) = false)
    (hread : w.readFails (resolvePath root pa) = false)
    (hland : w.landed (resolvePath root pa) x = x) :
    (SimplePatchTools.create_new_file_raw w fs root pa x).2 = .created pa ∧
    (SimplePatchTools.create_new_file_raw w fs root pa x).1.files
      (resolvePath root pa) = some x ∧
    ∀ q ∈ prefixesOf (resolvePath root pa).dropLast,
      (SimplePatchTools.create_new_file_raw w fs root pa x).1.dirs q = true := by
  have hany : (prefixesOf (resolvePath root pa).dropLast).any
      (fun q => (fs.files q).isSome) = false := by
    rw [List.any_eq_false]
    intro q hq
    rw [hnofile q hq]
    simp
  have hpd : decide (resolvePath root pa ∈
      prefixesOf (resolvePath root pa).dropLast) = false := by
    simpa using self_not_mem_prefixesOf_dropLast hne
  have hstep : SimplePatchTools.create_new_file_raw w fs root pa x =
      (({ fs with dirs := fun q =>
            decide (q ∈ prefixesOf (resolvePath root pa).dropLast) || fs.dirs q } :
          FS).writeFile (resolvePath root pa) x, .created pa) := by
    simp [SimplePatchTools.create_new_file_raw, SimplePatchTools.create_new_file_try,
      mkdirParents, writeText, readText, FS.existsAt, FS.writeFile,
      hmk, hany, hwrite, hread, hland, hdir, hpd]
  rw [hstep]
  refine ⟨rfl, by simp [FS.writeFile], ?_⟩
  intro q hq
  simp [FS.writeFile, hq]

/-- Witness for C6: creating `a/b/c.txt` with content `"X"` in the
one-file filesystem succeeds, the file then holds `"X"`, and the parent
directory `a/b` exists. -/
theorem create_new_file_raw_creates_witness :
    fsA.files ["a", "b"] = none ∧
    (SimplePatchTools.create_new_file_raw noFaults fsA [] abcTxt "X").2 =
      .created abcTxt ∧
    (SimplePatchTools.create_new_file_raw noFaults fsA [] abcTxt "X").1.files
      (resolvePath [] abcTxt) = some "X" ∧
    (SimplePatchTools.create_new_file_raw noFaults fsA [] abcTxt "X").1.dirs
      ["a", "b"] = true := by
  have h := create_new_file_raw_creates noFaults fsA [] abcTxt "X"
    (by decide) (by decide) (by decide) (by decide) (by decide) (by decide) (by decide)
  exact ⟨by decide, h.1, h.2.1, h.2.2 ["a", "b"] (by decide)⟩

/-! C7 — the mutator and creator convert every exception into a
descriptive outcome string. -/

/-- C7: for every input — including worlds that inject filesystem
faults during read, write, or directory creation — the mutator (both
variants) and the creator return a descriptive outcome string, either a
success message or an error message; every exception raised by a
`try:` body is converted by the handler into the corresponding caught
outcome rather than propagated. -/
theorem mutator_creator_no_raise (w : World) (fs : FS) (root : FPath) (f : PyPath)
    (c : String) :
    ((SimplePatchTools.apply_patch_raw w fs root f c).2.isSuccessMessage = true ∨
      (SimplePatchTools.apply_patch_raw w fs root f c).2.isErrorMessage = true) ∧
    ((PatchTools.apply_patch_raw w fs root f c).2.isSuccessMessage = true ∨
      (PatchTools.apply_patch_raw w fs root f c).2.isErrorMessage = true) ∧
    ((SimplePatchTools.create_new_file_raw w fs root f c).2.isSuccessMessage = true ∨
      (SimplePatchTools.create_new_file_raw w fs root f c).2.isErrorMessage = true) ∧
    (∀ e, (SimplePatchTools.apply_patch_try w fs root f c).2 = .error e →
      (SimplePatchTools.apply_patch_raw w fs root f c).2 = .updateError e) ∧
    (∀ e, (PatchTools.apply_patch_try w fs root f c).2 = .error e →
      (PatchTools.apply_patch_raw w fs root f c).2 = .updateError e) ∧
    (∀ e, (SimplePatchTools.create_new_file_try w fs root f c).2 = .error e →
      (SimplePatchTools.create_new_file_raw w fs root f c).2 = .createError e) := by
  have hcover : ∀ o : Outcome, o.isSuccessMessage = true ∨ o.isErrorMessage = true := by
    intro o
    cases o <;> simp [Outcome.isSuccessMessage, Outcome.isErrorMessage]
  refine ⟨hcover _, hcover _, hcover _, ?_, ?_, ?_⟩
  · intro e he
    unfold SimplePatchTools.apply_patch_raw
    split
    · next a b heq => rw [heq] at he; simp at he
    · next a b heq => rw [heq] at he; simp at he; simp [he]
  · intro e he
    unfold PatchTools.apply_patch_raw
    split
    · next a b heq => rw [heq] at he; simp at he
    · next a b heq => rw [heq] at he; simp at he; simp [he]
  · intro e he
    unfold SimplePatchTools.create_new_file_raw
    split
    · next a b heq => rw [heq] at he; simp at he
    · next a b heq => rw [heq] at he; simp at he; simp [he]

/-- Witness for C7: a world in which every read raises makes the simple
variant's `try:` body raise, and the caller still receives the caught
error outcome. -/
theorem mutator_creator_no_raise_witness :
    (SimplePatchTools.apply_patch_try readsFail fsA [] aTxt "x").2 =
      Except.error PyExc.osError ∧
    (SimplePatchTools.apply_patch_raw readsFail fsA [] aTxt "x").2 =
      .updateError PyExc.osError := by
  refine ⟨by rfl, ?_⟩
  exact (mutator_creator_no_raise readsFail fsA [] aTxt "x").2.2.2.1
    PyExc.osError (by rfl)

/-! C9 — an invalid project path makes the request fail without
touching the project. -/

/-- C9: when the project path parameter is missing, the path does not
exist, or it is not a directory, `fix_sync` returns the filesystem
unchanged together with a failure response, and its behaviour is
independent of the agent (the agent is never invoked). -/
theorem fix_sync_invalid_path (a1 a2 : FS → FPath → String → String → FS × Except String String)
    (fs : FS) (p : FPath) (sid instr : String)
    (hbad : p = [] ∨ fs.existsAt p = false ∨ fs.dirs p = false) :
    (Main.fix_sync a1 fs p sid instr).1 = fs ∧
    (Main.fix_sync a1 fs p sid instr).2.isFailure = true ∧
    Main.fix_sync a1 fs p sid instr = Main.fix_sync a2 fs p sid instr := by
  rcases hbad with h | h | h
  · simp [Main.fix_sync, h, Main.FixSyncResult.isFailure]
  · by_cases hc : (p = [] ∨ sid = "" ∨ instr = "") <;>
      simp [Main.fix_sync, h, hc, Main.FixSyncResult.isFailure]
  · by_cases hc : (p = [] ∨ sid = "" ∨ instr = "") <;>
      by_cases he : fs.existsAt p <;>
      simp [Main.fix_sync, h, hc, he, Main.FixSyncResult.isFailure]

/-- Witness for C9: a request naming the nonexistent project path
`nope` fails. -/
theorem fix_sync_invalid_path_witness :
    fsA.existsAt ["nope"] = false ∧
    (Main.fix_sync agentA fsA ["nope"] "s1" "fix").2.isFailure = true := by
  refine ⟨by decide, ?_⟩
  exact (fix_sync_invalid_path agentA agentB fsA ["nope"] "s1" "fix"
    (Or.inr (Or.inl (by decide)))).2.1

/-! C5 — the scan excludes ignored subtrees entirely. -/

/-- Filtering never increases a list's size. -/
theorem sizeOf_filter_le {α : Type} [SizeOf α] (p : α → Bool) (l : List α) :
    sizeOf (l.filter p) ≤ sizeOf l := by
  induction l with
  | nil => simp
  | cons a t ih =>
    rw [List.filter]
    split
    · simp only [List.cons.sizeOf_spec]
      omega
    · simp only [List.cons.sizeOf_spec]
      omega

/-- Joint induction for the walk: starting from a relative path all of
whose components are unignored, every recorded key has only unignored
components. -/
theorem osWalk_keys_unignored (n : Nat) :
    (∀ (t : FileTools.Tree) (rel : List String), sizeOf t ≤ n →
      (∀ c ∈ rel, c ∉ FileTools.IGNORED_TOPDIRS) →
      ∀ kf ∈ FileTools.osWalk rel t, ∀ c ∈ kf.1, c ∉ FileTools.IGNORED_TOPDIRS) ∧
    (∀ (l : List (String × FileTools.Tree)) (rel : List String), sizeOf l ≤ n →
      (∀ c ∈ rel, c ∉ FileTools.IGNORED_TOPDIRS) →
      (∀ d ∈ l, d.1 ∉ FileTools.IGNORED_TOPDIRS) →
      ∀ kf ∈ FileTools.osWalkList rel l, ∀ c ∈ kf.1, c ∉ FileTools.IGNORED_TOPDIRS) := by
  induction n using Nat.strong_induction_on with
  | _ n ih =>
    constructor
    · intro t rel hsz hrel kf hkf c hc
      obtain ⟨files, subdirs⟩ := t
      rw [FileTools.osWalk] at hkf
      split at hkf
      · simp at hkf
      · rcases List.mem_cons.mp hkf with h | h
        · subst h
          exact hrel c hc
        · have hle : sizeOf (subdirs.filter
              fun d => !(decide (d.1 ∈ FileTools.IGNORED_TOPDIRS))) ≤ sizeOf subdirs :=
            sizeOf_filter_le _ _
          have hlt : sizeOf (subdirs.filter
              fun d => !(decide (d.1 ∈ FileTools.IGNORED_TOPDIRS))) < n := by
            simp only [FileTools.Tree.node.sizeOf_spec] at hsz
            omega
          refine (ih _ hlt).2 _ rel le_rfl hrel ?_ kf h c hc
          intro d hd
          have := (List.mem_filter.mp hd).2
          simpa using this
    · intro l rel hsz hrel hl kf hkf c hc
      cases l with
      | nil =>
        rw [FileTools.osWalkList] at hkf
        simp at hkf
      | cons hd rest =>
        obtain ⟨m, t⟩ := hd
        rw [FileTools.osWalkList] at hkf
        rcases List.mem_append.mp hkf with h | h
        · have hm : m ∉ FileTools.IGNORED_TOPDIRS := hl (m, t) (List.mem_cons_self _ _)
          have hrel2 : ∀ x ∈ rel ++ [m], x ∉ FileTools.IGNORED_TOPDIRS := by
            intro x hx
            rcases List.mem_append.mp hx with hx | hx
            · exact hrel x hx
            · simp at hx
              subst hx
              exact hm
          have hlt : sizeOf t < n := by
            simp only [List.cons.sizeOf_spec, Prod.mk.sizeOf_spec] at hsz
            omega
          exact (ih _ hlt).1 t (rel ++ [m]) le_rfl hrel2 kf h c hc
        · have hlt : sizeOf rest < n := by
            simp only [List.cons.sizeOf_spec] at hsz
            omega
          exact (ih _ hlt).2 rest rel le_rfl hrel
            (fun d hd => hl d (List.mem_cons_of_mem _ hd)) kf h c hc

/-- C5: every entry of the tree returned by the scan has a key whose
components are all unignored names.  Hence the tree records no entry
for a directory whose path relative to the root begins with an ignored
top-level name, none for any descendant of such a directory, and the
files directly inside such directories — which the walk records only
under those keys — appear in no recorded entry. -/
theorem read_dir_tree_raw_excludes_ignored (r : Option FileTools.Tree)
    (tree : List (List String × List String))
    (ht : FileTools.read_dir_tree_raw r = .ok tree) :
    ∀ kf ∈ tree, ∀ c ∈ kf.1, c ∉ FileTools.IGNORED_TOPDIRS := by
  match r with
  | none =>
    have h2 : tree = ([] : List (List String × List String)) := by
      simpa [FileTools.read_dir_tree_raw] using ht.symm
    subst h2
    simp
  | some t =>
    have h2 : tree = FileTools.osWalk [] t := by
      simpa [FileTools.read_dir_tree_raw] using ht.symm
    subst h2
    intro kf hkf c hc
    exact (osWalk_keys_unignored (sizeOf t)).1 t [] le_rfl (by simp) kf hkf c hc

/-- Witness for C5: scanning the demo project records the `src` entry
(whose name is not ignored) while the walk's output is reachable from
`read_dir_tree_raw`. -/
theorem read_dir_tree_raw_excludes_ignored_witness :
    FileTools.read_dir_tree_raw (some demoTree) = .ok (FileTools.osWalk [] demoTree) ∧
    (["src"], ["main.py"]) ∈ FileTools.osWalk [] demoTree ∧
    "src" ∉ FileTools.IGNORED_TOPDIRS := by
  have hmem : (["src"], ["main.py"]) ∈ FileTools.osWalk [] demoTree := by
    simp [demoTree, FileTools.osWalk, FileTools.osWalkList, FileTools.headIgnored,
      FileTools.IGNORED_TOPDIRS]
  exact ⟨rfl, hmem,
    read_dir_tree_raw_excludes_ignored (some demoTree) _ rfl _ hmem "src" (by simp)⟩

/-! C8 — scanning an invalid root does not raise. -/

/-- Counterexample for C8: on a root that does not exist (or is not a
directory), `read_dir_tree_raw` does not fail with
`NotADirectoryError`; `os.walk` yields nothing and the function returns
the empty `DirectoryTree`. -/
theorem read_dir_tree_raw_invalid_root_counterexample :
    FileTools.read_dir_tree_raw none = .ok [] ∧
    FileTools.read_dir_tree_raw none ≠ .error FileTools.ScanErr.notADirectoryError := by
  exact ⟨rfl, by simp [FileTools.read_dir_tree_raw]⟩

/-- C8 amended: for a root path that does not exist or is not a
directory, `read_dir_tree_raw` returns the empty directory tree and
raises no error. -/
theorem read_dir_tree_raw_invalid_root_empty :
    FileTools.read_dir_tree_raw none = .ok [] := rfl

end GitGenie
